import Mathlib

/-!
# FlexiFocus core: shallow embedding and verification

A shallow embedding of the FlexiFocus browser extension's timer core:
the phase engine (`src/services/timer.js`), the timer lifecycle operations
and alarm handler of the background service worker
(`src/background/service-worker.js`), the state-merge utilities
(`src/services/state.js`), and the default catalog
(`src/shared/constants.js`).

Modelling conventions:
* JavaScript numbers that hold timestamps, durations and counters are
  embedded as `Int` (all arithmetic the core performs on them is integer
  arithmetic: `+`, `-`, `Math.max`, `%`, `* 60000`).
* `Date.now()` and `crypto.randomUUID()` are injected as explicit
  parameters (`now : Int`, fresh-id strings).
* `chrome.storage.local` holds two keys, `state` and `settings`; the pair
  is embedded as `Store`.  Each lifecycle operation is a function from the
  stored contents (plus the injected clock) to the stored contents after
  the handler has finished; a thrown `Error` is an `Except.error`, and the
  message listener's `catch` leaves storage untouched in that case.
* `loadState` merges the stored objects with the defaults before use; on a
  complete, well-typed aggregate (every key present with its default's
  shape, which is the case for every aggregate the worker itself writes)
  that merge is the identity, so the typed operations read the store
  directly.  The generic dynamic merge itself is embedded separately on a
  JSON-value type (`JsVal`) for the claims about `mergeDefaults`.
* Optional / absent JavaScript fields are embedded as `Option _` where an
  operation distinguishes absence (`?? fallback`), and absent numeric
  method fields are embedded as `0` (the code only reads them through
  `msFromMinutes`, whose default parameter maps `undefined` to `0`, and
  through `|| 4`, which treats `undefined` and `0` alike).
-/

namespace FlexiFocus

/-- The four phase strings `'work' | 'break' | 'longBreak' | 'flow'` that the
state machine produces (`break` is a Lean keyword, hence `brk`). -/
inductive Phase where
  | work
  | brk
  | longBreak
  | flow
deriving DecidableEq, Repr

/-- A timing-method configuration (an entry of `DEFAULT_METHODS` or of
`settings.presets`).  Numeric fields that are absent in the source object
(the duration fields of the flexible `flowtime` method, and
`suggestedBreakMinutes` of the fixed methods) are embedded as `0`. -/
structure Method where
  key : String
  label : String
  flexible : Bool
  workMinutes : Int
  shortBreakMinutes : Int
  longBreakMinutes : Int
  cyclesBeforeLongBreak : Int
  suggestedBreakMinutes : Int
deriving DecidableEq, Repr

/-- The timer snapshot (`state.timer`). -/
structure Timer where
  methodKey : String
  phase : Phase
  isRunning : Bool
  startTime : Int
  endTime : Int
  remainingMs : Int
  cycleCount : Int
  completedSessions : Int
  activeTaskId : Option String
deriving DecidableEq, Repr

/-- A task record. -/
structure Task where
  id : String
  title : String
  estimate : Int
  completedSessions : Int
  done : Bool
deriving DecidableEq, Repr

/-- A history entry (`buildHistoryEntry` in the service worker). -/
structure HistoryEntry where
  id : String
  methodKey : String
  phase : Phase
  durationMs : Int
  startedAt : Int
  endedAt : Int
  taskId : Option String
deriving DecidableEq, Repr

/-- The rolling statistics record of `DEFAULT_STATE.statistics`. -/
structure Statistics where
  totalSessions : Int
  totalFocusTime : Int
  totalBreakTime : Int
  longestSession : Int
  currentStreak : Int
  longestStreak : Int
  lastSessionDate : Option String
deriving DecidableEq, Repr

/-- The persisted `state` aggregate: timer + tasks + history + statistics. -/
structure AppState where
  timer : Timer
  tasks : List Task
  history : List HistoryEntry
  statistics : Statistics
deriving DecidableEq, Repr

/-- The persisted `settings` aggregate.  Only the fields the verified
operations consult are carried; `notifications`, `sound`, `volume`,
`breakEnforcement`, `badge` and `theme` drive out-of-scope I/O side effects
(notifications, audio, badge text) and never influence the stored state. -/
structure Settings where
  selectedMethod : String
  presets : List (String × Method)
  autoStartBreaks : Bool
  autoStartWork : Bool
  lockIn : Bool
deriving DecidableEq, Repr

/-- The two keys of `chrome.storage.local`. -/
structure Store where
  state : AppState
  settings : Settings
deriving DecidableEq, Repr

/-! ## Default catalog (`src/shared/constants.js`) -/

def pomodoroMethod : Method :=
  { key := "pomodoro", label := "Pomodoro", flexible := false,
    workMinutes := 25, shortBreakMinutes := 5, longBreakMinutes := 15,
    cyclesBeforeLongBreak := 4, suggestedBreakMinutes := 0 }

def fiftyTwoSeventeenMethod : Method :=
  { key := "fiftyTwoSeventeen", label := "52 / 17", flexible := false,
    workMinutes := 52, shortBreakMinutes := 17, longBreakMinutes := 17,
    cyclesBeforeLongBreak := 1, suggestedBreakMinutes := 0 }

def ultradianMethod : Method :=
  { key := "ultradian", label := "Ultradian 90 / 20", flexible := false,
    workMinutes := 90, shortBreakMinutes := 20, longBreakMinutes := 20,
    cyclesBeforeLongBreak := 1, suggestedBreakMinutes := 0 }

def flowtimeMethod : Method :=
  { key := "flowtime", label := "Flowtime", flexible := true,
    workMinutes := 0, shortBreakMinutes := 0, longBreakMinutes := 0,
    cyclesBeforeLongBreak := 0, suggestedBreakMinutes := 10 }

def quick5Method : Method :=
  { key := "quick5", label := "Quick 5 Min", flexible := false,
    workMinutes := 5, shortBreakMinutes := 1, longBreakMinutes := 1,
    cyclesBeforeLongBreak := 1, suggestedBreakMinutes := 0 }

def quick10Method : Method :=
  { key := "quick10", label := "Quick 10 Min", flexible := false,
    workMinutes := 10, shortBreakMinutes := 2, longBreakMinutes := 2,
    cyclesBeforeLongBreak := 1, suggestedBreakMinutes := 0 }

def quick15Method : Method :=
  { key := "quick15", label := "Quick 15 Min", flexible := false,
    workMinutes := 15, shortBreakMinutes := 3, longBreakMinutes := 3,
    cyclesBeforeLongBreak := 1, suggestedBreakMinutes := 0 }

def customMethod : Method :=
  { key := "custom", label := "Custom", flexible := false,
    workMinutes := 30, shortBreakMinutes := 5, longBreakMinutes := 15,
    cyclesBeforeLongBreak := 4, suggestedBreakMinutes := 0 }

/-- `DEFAULT_METHODS`, as an association list keyed on the method key. -/
def DEFAULT_METHODS : List (String × Method) :=
  [ ("pomodoro", pomodoroMethod),
    ("fiftyTwoSeventeen", fiftyTwoSeventeenMethod),
    ("ultradian", ultradianMethod),
    ("flowtime", flowtimeMethod),
    ("quick5", quick5Method),
    ("quick10", quick10Method),
    ("quick15", quick15Method),
    ("custom", customMethod) ]

/-- `DEFAULT_SETTINGS` (fields carried by the embedding; `presets` is a copy
of `DEFAULT_METHODS`). -/
def DEFAULT_SETTINGS : Settings :=
  { selectedMethod := "pomodoro", presets := DEFAULT_METHODS,
    autoStartBreaks := true, autoStartWork := true, lockIn := false }

/-- `DEFAULT_STATE.timer`. -/
def defaultTimer : Timer :=
  { methodKey := DEFAULT_SETTINGS.selectedMethod, phase := .work,
    isRunning := false, startTime := 0, endTime := 0, remainingMs := 0,
    cycleCount := 0, completedSessions := 0, activeTaskId := none }

/-- `DEFAULT_STATE.statistics`. -/
def defaultStatistics : Statistics :=
  { totalSessions := 0, totalFocusTime := 0, totalBreakTime := 0,
    longestSession := 0, currentStreak := 0, longestStreak := 0,
    lastSessionDate := none }

/-- `DEFAULT_STATE`. -/
def DEFAULT_STATE : AppState :=
  { timer := defaultTimer, tasks := [], history := [],
    statistics := defaultStatistics }

/-! ## Phase engine (`src/services/timer.js`, duplicated in the worker) -/

/-- Association-list lookup standing for a JavaScript property access
`table[key]` on the catalog / presets objects. -/
def lookupKey {α : Type} : List (String × α) → String → Option α
  | [], _ => none
  | (k, v) :: rest, key => if k = key then some v else lookupKey rest key

/-- `getMethodConfig(methodKey, settings)`:
`settings.presets?.[methodKey] ?? DEFAULT_METHODS[methodKey] ?? DEFAULT_METHODS.pomodoro`. -/
def getMethodConfig (methodKey : String) (settings : Settings) : Method :=
  match lookupKey settings.presets methodKey with
  | some preset => preset
  | none =>
    match lookupKey DEFAULT_METHODS methodKey with
    | some m => m
    | none => pomodoroMethod

/-- `msFromMinutes(minutes = 0)`: `Math.max(0, minutes) * 60 * 1000`. -/
def msFromMinutes (minutes : Int) : Int :=
  max 0 minutes * 60 * 1000

/-- `computePhaseDuration(method, phase)`: flexible methods yield 0,
otherwise the minutes field selected by the phase, in milliseconds.  The
final `return` covers every phase that is neither `'longBreak'` nor
`'break'`. -/
def computePhaseDuration (method : Method) (phase : Phase) : Int :=
  if method.flexible then 0
  else
    match phase with
    | .longBreak => msFromMinutes method.longBreakMinutes
    | .brk => msFromMinutes method.shortBreakMinutes
    | _ => msFromMinutes method.workMinutes

/-- Result record of `nextPhase`. -/
structure NextPhaseInfo where
  phase : Phase
  longBreak : Bool
deriving DecidableEq, Repr

/-- `nextPhase(timer, method)`.  `method.cyclesBeforeLongBreak || 4` maps
the falsy value 0 (and the absent field, embedded as 0) to 4; `%` is
JavaScript's truncating remainder, `Int.tmod`. -/
def nextPhase (timer : Timer) (method : Method) : NextPhaseInfo :=
  if method.flexible then { phase := .flow, longBreak := false }
  else if timer.phase = .work then
    let divisor := if method.cyclesBeforeLongBreak = 0 then 4 else method.cyclesBeforeLongBreak
    let longBreakDue := Int.tmod (timer.cycleCount + 1) divisor = 0
    { phase := if longBreakDue then .longBreak else .brk, longBreak := longBreakDue }
  else { phase := .work, longBreak := false }

/-- The last line of `computeRemaining` reads
`computePhaseDuration(timer, method)`: the two arguments are passed in
swapped order.  Evaluated dynamically, a timer object has no `flexible`
property (`undefined`, falsy) and the method object is equal to neither of
the strings `'longBreak'` and `'break'`, so the call reaches
`msFromMinutes(timer.workMinutes)`; a timer has no `workMinutes` property
either, so `msFromMinutes`'s default parameter `0` applies and the call
returns `msFromMinutes 0 = 0` for every timer and method. -/
def computePhaseDurationSwapped (_timer : Timer) (_method : Method) : Int :=
  msFromMinutes 0

/-- `computeRemaining(timer, method)` from `src/services/timer.js`, with
`Date.now()` injected as `now`.  `timer.remainingMs || 0` equals
`timer.remainingMs` on integers, and `state.timer.startTime || Date.now()`
replaces a zero `startTime` by `now`. -/
def computeRemaining (timer : Timer) (method : Method) (now : Int) : Int :=
  if method.flexible then
    if ¬ timer.isRunning then timer.remainingMs
    else max 0 (now - (if timer.startTime = 0 then now else timer.startTime))
  else if timer.isRunning ∧ timer.endTime ≠ 0 then
    max 0 (timer.endTime - now)
  else if ¬ timer.isRunning ∧ timer.remainingMs ≠ 0 then
    timer.remainingMs
  else
    max 0 (if timer.endTime ≠ 0 then timer.endTime - now
           else computePhaseDurationSwapped timer method)

/-- `remainingMs(timer)` from the service worker (used by the `getState`
response), with `Date.now()` injected as `now`.  A running timer with both
`endTime` and `startTime` zero falls through both inner `if`s into the
trailing code. -/
def swRemainingMs (timer : Timer) (now : Int) : Int :=
  if timer.isRunning ∧ timer.endTime ≠ 0 then max 0 (timer.endTime - now)
  else if timer.isRunning ∧ timer.startTime ≠ 0 then max 0 (now - timer.startTime)
  else if timer.endTime ≠ 0 then max 0 (timer.endTime - now)
  else timer.remainingMs

/-! ## Timer lifecycle (`src/background/service-worker.js`)

Each operation is embedded as a function from the stored contents (and the
injected clock / fresh ids) to the stored contents after the handler has
run to completion.  Alarm scheduling, badge text, notifications and tab
opening are external collaborators without storage effects and are
dropped; `saveAndBroadcast`'s broadcast is best-effort and storage-free,
so `saveAndBroadcast(state, settings)` is embedded as replacing the stored
aggregate. -/

/-- `buildHistoryEntry(timer, methodKey, phase, durationMs, taskId)`, with
`crypto.randomUUID()` and `Date.now()` injected. -/
def buildHistoryEntry (freshId : String) (timer : Timer) (methodKey : String)
    (phase : Phase) (durationMs : Int) (taskId : Option String) (now : Int) :
    HistoryEntry :=
  { id := freshId, methodKey := methodKey, phase := phase,
    durationMs := durationMs, startedAt := timer.startTime, endedAt := now,
    taskId := taskId }

/-- `startTimer(methodKey, phaseOverride)`: resolves the method
(`methodKey ?? state.timer.methodKey`) and phase
(`phaseOverride ?? state.timer.phase ?? 'work'`; the stored phase is always
present in the typed aggregate), then starts either a flow session or a
fixed phase ending at `now + duration`. -/
def startTimer (methodKeyArg : Option String) (phaseOverride : Option Phase)
    (now : Int) (store : Store) : Store :=
  let state := store.state
  let settings := store.settings
  let method := getMethodConfig (methodKeyArg.getD state.timer.methodKey) settings
  let phase := phaseOverride.getD state.timer.phase
  if method.flexible then
    let timer := { state.timer with
      methodKey := method.key, phase := .flow, isRunning := true,
      startTime := now, endTime := 0, remainingMs := 0 }
    { store with state := { state with timer := timer } }
  else
    let durationMs := computePhaseDuration method phase
    let endTime := now + durationMs
    let timer := { state.timer with
      methodKey := method.key, phase := phase, isRunning := true,
      startTime := now, endTime := endTime, remainingMs := 0 }
    { store with state := { state with timer := timer } }

/-- `pauseTimer()`: no-op when not running; throws when lock-in is enabled,
the phase is `work` and the method is not flexible; otherwise captures the
remaining time and freezes the timer.  `state.timer.startTime || Date.now()`
replaces a zero `startTime` by `now`. -/
def pauseTimer (now : Int) (store : Store) : Except String Store :=
  let state := store.state
  let settings := store.settings
  if ¬ state.timer.isRunning then .ok store
  else
    let method := getMethodConfig state.timer.methodKey settings
    if settings.lockIn ∧ state.timer.phase = .work ∧ ¬ method.flexible then
      .error "Lock-In Mode is enabled; pause is blocked during focus."
    else
      let remainingMs :=
        if method.flexible then
          max 0 (now - (if state.timer.startTime = 0 then now else state.timer.startTime))
        else max 0 (state.timer.endTime - now)
      let timer := { state.timer with
        isRunning := false, remainingMs := remainingMs,
        startTime := 0, endTime := 0 }
      .ok { store with state := { state with timer := timer } }

/-- `resumeTimer()`: flexible methods restart the elapsed-time clock at
`now - remainingMs`; fixed methods schedule a new end at
`now + (remainingMs || full phase duration)` (`||` sends the integer 0 to
the fallback). -/
def resumeTimer (now : Int) (store : Store) : Store :=
  let state := store.state
  let settings := store.settings
  let method := getMethodConfig state.timer.methodKey settings
  if method.flexible then
    let elapsed := max 0 state.timer.remainingMs
    let timer := { state.timer with
      isRunning := true, startTime := now - elapsed, endTime := 0,
      remainingMs := elapsed }
    { store with state := { state with timer := timer } }
  else
    let baseDuration :=
      if state.timer.remainingMs = 0 then computePhaseDuration method state.timer.phase
      else state.timer.remainingMs
    let endTime := now + baseDuration
    let timer := { state.timer with
      isRunning := true, startTime := now, endTime := endTime, remainingMs := 0 }
    { store with state := { state with timer := timer } }

/-- `resetTimer()`: throws when lock-in is enabled, the phase is `work` and
the timer is running (the method's flexibility is not consulted);
otherwise replaces the timer with `DEFAULT_STATE.timer` carrying the
settings' selected method. -/
def resetTimer (store : Store) : Except String Store :=
  let state := store.state
  let settings := store.settings
  if settings.lockIn ∧ state.timer.phase = .work ∧ state.timer.isRunning then
    .error "Lock-In Mode is enabled; reset is blocked during focus."
  else
    let timer := { defaultTimer with methodKey := settings.selectedMethod }
    .ok { store with state := { state with timer := timer } }

/-- Stored contents and error response after a `pauseTimer` message: the
listener's `catch` reports a thrown error, and the throw in `pauseTimer`
happens before any `chrome.storage.local.set`, so storage is unchanged on
failure. -/
def runPauseTimer (now : Int) (store : Store) : Store × Option String :=
  match pauseTimer now store with
  | .ok s => (s, none)
  | .error e => (store, some e)

/-- Stored contents and error response after a `resetTimer` message (same
convention as `runPauseTimer`). -/
def runResetTimer (store : Store) : Store × Option String :=
  match resetTimer store with
  | .ok s => (s, none)
  | .error e => (store, some e)

/-- `updateTaskProgress(previousState, timer)`: a no-op unless the snapshot
being completed had a (truthy) `activeTaskId` and was in the `work` phase;
otherwise it re-loads storage, increments `completedSessions` of the active
task and derives `done`, and saves.  The typed task record always carries
`completedSessions` and `estimate` (the `?? 0` / `?? 1` fallbacks serve
records predating those fields). -/
def updateTaskProgress (previousState : AppState) (store : Store) : Store :=
  match previousState.timer.activeTaskId with
  | none => store
  | some activeId =>
    if previousState.timer.phase ≠ .work then store
    else
      let tasks := store.state.tasks.map fun task =>
        if task.id ≠ activeId then task
        else { task with
          completedSessions := task.completedSessions + 1,
          done := task.done || decide (task.completedSessions + 1 ≥ task.estimate) }
      { store with state := { store.state with tasks := tasks } }

/-- The phase-completion branch of `handleAlarm` (the `ALARM_NAME` case; the
`BADGE_ALARM` branch only repaints the badge and never writes storage).
Mirrors the source order: build the history entry and next timer from the
loaded state, run `updateTaskProgress` against storage, then persist
`newState` — whose `tasks` field still comes from the originally loaded
state — and, when auto-start applies on a non-flexible method, run
`startTimer`. -/
def handleAlarm (freshId : String) (now : Int) (store : Store) : Store :=
  let state := store.state
  let settings := store.settings
  let method := getMethodConfig state.timer.methodKey settings
  if ¬ state.timer.isRunning then store
  else
    let durationMs := max 0 (state.timer.endTime - state.timer.startTime)
    let entry := buildHistoryEntry freshId state.timer method.key
      state.timer.phase durationMs state.timer.activeTaskId now
    let history := (entry :: state.history).take 200
    let incrementedCycle :=
      if state.timer.phase = .work then state.timer.cycleCount + 1
      else state.timer.cycleCount
    let next := nextPhase state.timer method
    let timer := { state.timer with
      isRunning := false, startTime := 0, endTime := 0, remainingMs := 0,
      phase := next.phase,
      cycleCount := if next.phase = .work then incrementedCycle else state.timer.cycleCount,
      completedSessions :=
        if state.timer.phase = .work then state.timer.completedSessions + 1
        else state.timer.completedSessions }
    let newState : AppState := { state with timer := timer, history := history }
    let store1 := updateTaskProgress state store
    let shouldStart :=
      (timer.phase = .work ∧ settings.autoStartWork) ∨
      (timer.phase ≠ .work ∧ settings.autoStartBreaks)
    if shouldStart ∧ ¬ method.flexible then
      let store2 := { store1 with state := newState }
      startTimer (some method.key) (some timer.phase) now store2
    else
      { store1 with state := newState }

/-! ## Task creation and history retention -/

/-- `createTask(title, estimate = 1)` from `src/services/state.js`: the
absent argument takes the default 1, and the estimate is clamped to ≥ 1 by
`Math.max(1, estimate)`. -/
def createTask (freshId : String) (title : String) (estimate : Option Int) : Task :=
  { id := freshId, title := title, estimate := max 1 (estimate.getD 1),
    completedSessions := 0, done := false }

/-- The `addTask` case of the service worker's message listener: builds the
task inline with `estimate: message.estimate ?? 1` (no clamping) and
prepends it to the stored task list. -/
def swAddTask (freshId : String) (title : String) (estimate : Option Int)
    (store : Store) : Store × Task :=
  let task : Task :=
    { id := freshId, title := title, estimate := estimate.getD 1,
      completedSessions := 0, done := false }
  ({ store with state := { store.state with tasks := task :: store.state.tasks } },
   task)

/-- `trimHistory(history, maxEntries)` from `src/services/state.js`:
`history.slice(0, maxEntries)` (the caller-side default is 200). -/
def trimHistory (history : List HistoryEntry) (maxEntries : Nat) : List HistoryEntry :=
  history.take maxEntries

/-- The history append of `handleAlarm` / `completeFlowtime`:
`[entry, ...(state.history ?? [])].slice(0, 200)`. -/
def appendHistory (entry : HistoryEntry) (history : List HistoryEntry) :
    List HistoryEntry :=
  (entry :: history).take 200

/-! ## Concrete fixtures for the verification scenarios -/

/-- Settings with both auto-start flags and lock-in off. -/
def manualSettings : Settings :=
  { selectedMethod := "pomodoro", presets := DEFAULT_METHODS,
    autoStartBreaks := false, autoStartWork := false, lockIn := false }

/-- A freshly started Pomodoro work phase (started at 0, ends at 25 min). -/
def runningWorkTimer : Timer :=
  { methodKey := "pomodoro", phase := .work, isRunning := true,
    startTime := 0, endTime := 1500000, remainingMs := 0,
    cycleCount := 0, completedSessions := 0, activeTaskId := none }

/-- A store holding a running Pomodoro work phase under manual settings. -/
def runningWorkStore : Store :=
  { state := { timer := runningWorkTimer, tasks := [], history := [],
               statistics := defaultStatistics },
    settings := manualSettings }

/-- Four Pomodoro work phases completed in sequence, each restarted
manually (the spec's `cyclesBeforeLongBreak = 4` routing scenario). -/
def c1AfterFirst : Store := handleAlarm "h1" 1500000 runningWorkStore

def c1SecondWork : Store := startTimer none (some .work) 2000000 c1AfterFirst

def c1AfterSecond : Store := handleAlarm "h2" 3500000 c1SecondWork

def c1ThirdWork : Store := startTimer none (some .work) 4000000 c1AfterSecond

def c1AfterThird : Store := handleAlarm "h3" 5500000 c1ThirdWork

def c1FourthWork : Store := startTimer none (some .work) 6000000 c1AfterThird

def c1AfterFourth : Store := handleAlarm "h4" 7500000 c1FourthWork

/-- A task two sessions long, not yet worked on. -/
def c3Task : Task :=
  { id := "t1", title := "Write report", estimate := 2,
    completedSessions := 0, done := false }

/-- A running work phase with `c3Task` active. -/
def c3Store : Store :=
  { state := { timer := { runningWorkTimer with activeTaskId := some "t1" },
               tasks := [c3Task], history := [], statistics := defaultStatistics },
    settings := manualSettings }

/-- Lock-in enabled while a work-phase timer runs under the flexible
`flowtime` method (reachable: `setMethod` forces `phase = 'work'` without
stopping a running timer). -/
def lockedFlexWorkStore : Store :=
  { state := { timer := { methodKey := "flowtime", phase := .work,
                          isRunning := true, startTime := 0, endTime := 0,
                          remainingMs := 0, cycleCount := 0,
                          completedSessions := 0, activeTaskId := none },
               tasks := [], history := [], statistics := defaultStatistics },
    settings := { manualSettings with lockIn := true } }

/-- Lock-in enabled while a fixed-method work phase runs. -/
def lockedFixedWorkStore : Store :=
  { state := { timer := runningWorkTimer, tasks := [], history := [],
               statistics := defaultStatistics },
    settings := { manualSettings with lockIn := true } }

/-- An idle fixed-method snapshot with no remainder and no end time (the
fallback case of the remaining-time computations). -/
def idleZeroTimer : Timer :=
  { methodKey := "pomodoro", phase := .work, isRunning := false,
    startTime := 0, endTime := 0, remainingMs := 0, cycleCount := 0,
    completedSessions := 0, activeTaskId := none }

/-- A paused flowtime snapshot carrying a negative `remainingMs`. -/
def negativePausedFlowTimer : Timer :=
  { methodKey := "flowtime", phase := .flow, isRunning := false,
    startTime := 0, endTime := 0, remainingMs := -1, cycleCount := 0,
    completedSessions := 0, activeTaskId := none }

/-- A history entry parametrized by its start instant. -/
def sampleEntry (i : Int) : HistoryEntry :=
  { id := "e", methodKey := "pomodoro", phase := .work, durationMs := 1500000,
    startedAt := i, endedAt := i + 1500000, taskId := none }

/-- The store as initialized at install time. -/
def initialStore : Store :=
  { state := DEFAULT_STATE, settings := DEFAULT_SETTINGS }

/-! ## Dynamic state merge (`mergeDefaults` in `src/services/state.js` and,
verbatim, in the service worker)

`mergeDefaults` operates on arbitrary JSON-like values, so it is embedded
over a JSON value type.  JavaScript objects enumerate each key once, so an
object is a field list whose keys the theorems assume distinct where the
source relies on it.  `structuredClone` is the identity on pure data. -/

/-- A JSON-like JavaScript value.  (A string's character-index properties
are not modelled: `mergeDefaults` only spreads and enumerates its two
object arguments and recurses into plain-object fields, never into
strings.) -/
inductive JsVal where
  | null : JsVal
  | bool : Bool → JsVal
  | num : Int → JsVal
  | str : String → JsVal
  | arr : List JsVal → JsVal
  | obj : List (String × JsVal) → JsVal
deriving Repr

/-- The own enumerable fields a value contributes when spread into an
object literal: a plain object contributes its fields, everything else
(null, booleans, numbers, arrays-as-defaults never reach this position,
and primitives) contributes none. -/
def fieldsOf : JsVal → List (String × JsVal)
  | .obj fs => fs
  | _ => []

/-- Setting one key in a field list, with JavaScript object-literal
semantics: an existing key keeps its position and takes the new value, a
new key is appended. -/
def setField : List (String × JsVal) → String → JsVal → List (String × JsVal)
  | [], k, v => [(k, v)]
  | (k', v') :: rest, k, v =>
    if k' = k then (k, v) :: rest else (k', v') :: setField rest k v

/-- Spreading `extra` after `base` inside an object literal
(`{...base, ...extra}` restricted to the fields): later entries override
earlier ones key by key. -/
def spreadFields (base extra : List (String × JsVal)) : List (String × JsVal) :=
  extra.foldl (fun acc kv => setField acc kv.1 kv.2) base

/-- `Array.isArray(v) || v === null`: the values the merge keeps atomically. -/
def isAtomic : JsVal → Bool
  | .arr _ => true
  | .null => true
  | _ => false

/-- The `Object.entries(current).reduce(...)` accumulator of `mergeDefaults`:
for each current entry, an array or `null` value is kept as-is, a plain
object value is merged recursively against `defaults[key] ?? {}`, and any
other value contributes nothing.  The recursive call
`mergeDefaults(value, defaults[key] ?? {})` is inlined here (its unfolding,
`mergeDefaults_obj`, restores the source's shape) so that the recursion is
structural in the current value. -/
def mergeEntries : List (String × JsVal) → List (String × JsVal) → List (String × JsVal)
  | [], _ => []
  | (k, v) :: rest, defF =>
    match v with
    | .arr elems => (k, .arr elems) :: mergeEntries rest defF
    | .null => (k, .null) :: mergeEntries rest defF
    | .obj fs =>
      let d := fieldsOf ((lookupKey defF k).getD (.obj []))
      (k, .obj (spreadFields (spreadFields d fs) (mergeEntries fs d)))
        :: mergeEntries rest defF
    | _ => mergeEntries rest defF

/-- `mergeDefaults(current, defaults)`:
`structuredClone({...defaults, ...current, ...reduceResult})`, where the
reduce result is `mergeEntries` over `current`'s entries.  A non-object
`current` spreads no fields and skips the reduce, which `fieldsOf`
captures. -/
def mergeDefaults (current defaults : JsVal) : JsVal :=
  .obj (spreadFields (spreadFields (fieldsOf defaults) (fieldsOf current))
        (mergeEntries (fieldsOf current) (fieldsOf defaults)))

/-- Unfolding `mergeDefaults` on an object argument: this is exactly the
shape `mergeEntries` uses for its recursive call, so the inlining in
`mergeEntries` agrees with the source's recursive `mergeDefaults` call. -/
theorem mergeDefaults_obj (fs : List (String × JsVal)) (d : JsVal) :
    mergeDefaults (.obj fs) d =
      .obj (spreadFields (spreadFields (fieldsOf d) fs)
            (mergeEntries fs (fieldsOf d))) := rfl

/-! ## Field-lookup lemmas for the merge -/

theorem lookupKey_eq_none_iff {α : Type} (es : List (String × α)) (k : String) :
    lookupKey es k = none ↔ k ∉ es.map Prod.fst := by
  induction es with
  | nil => simp [lookupKey]
  | cons hd tl ih =>
    obtain ⟨k', v'⟩ := hd
    by_cases h : k' = k
    · subst h
      simp [lookupKey]
    · simp only [lookupKey, if_neg h, ih, List.map_cons, List.mem_cons, not_or]
      constructor
      · intro hn
        exact ⟨fun hkk => h hkk.symm, hn⟩
      · intro hn
        exact hn.2

theorem lookupKey_setField_self (fs : List (String × JsVal)) (k : String) (v : JsVal) :
    lookupKey (setField fs k v) k = some v := by
  induction fs with
  | nil => simp [setField, lookupKey]
  | cons hd tl ih =>
    obtain ⟨k', v'⟩ := hd
    by_cases h : k' = k
    · simp [setField, h, lookupKey]
    · simp [setField, h, lookupKey, ih]

theorem lookupKey_setField_ne (fs : List (String × JsVal)) (k k' : String)
    (v : JsVal) (h : k' ≠ k) :
    lookupKey (setField fs k v) k' = lookupKey fs k' := by
  have hne : ¬ k = k' := fun hkk => h hkk.symm
  induction fs with
  | nil => simp only [setField, lookupKey, if_neg hne]
  | cons hd tl ih =>
    obtain ⟨ka, va⟩ := hd
    simp only [setField]
    by_cases hk : ka = k
    · rw [if_pos hk]
      subst hk
      simp only [lookupKey, if_neg hne]
    · rw [if_neg hk]
      simp only [lookupKey]
      by_cases hk2 : ka = k'
      · rw [if_pos hk2, if_pos hk2]
      · rw [if_neg hk2, if_neg hk2, ih]

theorem lookupKey_spreadFields_not_mem (base extra : List (String × JsVal))
    (k : String) (h : k ∉ extra.map Prod.fst) :
    lookupKey (spreadFields base extra) k = lookupKey base k := by
  induction extra generalizing base with
  | nil => rfl
  | cons hd tl ih =>
    obtain ⟨k0, v0⟩ := hd
    simp only [List.map_cons, List.mem_cons, not_or] at h
    show lookupKey (spreadFields (setField base k0 v0) tl) k = lookupKey base k
    rw [ih _ h.2, lookupKey_setField_ne _ _ _ _ h.1]

theorem lookupKey_spreadFields_mem (base extra : List (String × JsVal))
    (k : String) (v : JsVal) (hnd : (extra.map Prod.fst).Nodup)
    (h : lookupKey extra k = some v) :
    lookupKey (spreadFields base extra) k = some v := by
  induction extra generalizing base with
  | nil => simp [lookupKey] at h
  | cons hd tl ih =>
    obtain ⟨k0, v0⟩ := hd
    simp only [List.map_cons, List.nodup_cons] at hnd
    by_cases hk : k0 = k
    · subst hk
      simp only [lookupKey, if_pos rfl] at h
      show lookupKey (spreadFields (setField base k0 v0) tl) k0 = some v
      rw [lookupKey_spreadFields_not_mem _ _ _ hnd.1, lookupKey_setField_self]
      exact h
    · simp only [lookupKey, if_neg hk] at h
      show lookupKey (spreadFields (setField base k0 v0) tl) k = some v
      exact ih _ hnd.2 h

theorem mergeEntries_keys_sublist (es defF : List (String × JsVal)) :
    ((mergeEntries es defF).map Prod.fst).Sublist (es.map Prod.fst) := by
  induction es with
  | nil => simp [mergeEntries]
  | cons hd tl ih =>
    obtain ⟨k, v⟩ := hd
    cases v with
    | null => simpa [mergeEntries] using ih.cons₂ k
    | bool b => simpa [mergeEntries] using ih.cons k
    | num n => simpa [mergeEntries] using ih.cons k
    | str s => simpa [mergeEntries] using ih.cons k
    | arr elems => simpa [mergeEntries] using ih.cons₂ k
    | obj fs => simpa [mergeEntries] using ih.cons₂ k

theorem lookupKey_mergeEntries_atomic (es defF : List (String × JsVal))
    (k : String) (v : JsVal) (hnd : (es.map Prod.fst).Nodup)
    (h : lookupKey es k = some v) (ha : isAtomic v = true) :
    lookupKey (mergeEntries es defF) k = some v := by
  induction es with
  | nil => simp [lookupKey] at h
  | cons hd tl ih =>
    obtain ⟨k0, v0⟩ := hd
    simp only [List.map_cons, List.nodup_cons] at hnd
    by_cases hk : k0 = k
    · subst hk
      have h' : v0 = v := by simpa [lookupKey] using h
      subst h'
      cases v0 with
      | null => simp [mergeEntries, lookupKey]
      | arr elems => simp [mergeEntries, lookupKey]
      | bool b => simp [isAtomic] at ha
      | num n => simp [isAtomic] at ha
      | str s => simp [isAtomic] at ha
      | obj fs => simp [isAtomic] at ha
    · simp only [lookupKey, if_neg hk] at h
      have htail := ih hnd.2 h
      cases v0 <;> simp [mergeEntries, lookupKey, hk, htail]

theorem lookupKey_mergeEntries_none (es defF : List (String × JsVal))
    (k : String) (h : lookupKey es k = none) :
    lookupKey (mergeEntries es defF) k = none := by
  rw [lookupKey_eq_none_iff] at h ⊢
  intro hmem
  exact h ((mergeEntries_keys_sublist es defF).subset hmem)

/-- C8: for every current and defaults object, `mergeDefaults` treats
arrays and `null` atomically — any key whose current value is an array or
`null` appears in the result with exactly that value, never element-wise
merged with the default; in particular
`mergeDefaults({tasks: []}, {tasks: [x]})` yields `{tasks: []}`; and keys
present only in defaults are backfilled from defaults. -/
theorem C8_mergeDefaults_atomic_and_backfill :
    (∀ (curF defF : List (String × JsVal)) (k : String) (v : JsVal),
        (curF.map Prod.fst).Nodup →
        lookupKey curF k = some v → isAtomic v = true →
        lookupKey (fieldsOf (mergeDefaults (.obj curF) (.obj defF))) k = some v) ∧
    (∀ (curF defF : List (String × JsVal)) (k : String) (v : JsVal),
        lookupKey curF k = none → lookupKey defF k = some v →
        lookupKey (fieldsOf (mergeDefaults (.obj curF) (.obj defF))) k = some v) ∧
    mergeDefaults (.obj [("tasks", .arr [])])
        (.obj [("tasks", .arr [.str "x"])]) = .obj [("tasks", .arr [])] := by
  refine ⟨?_, ?_, ?_⟩
  · intro curF defF k v hnd h ha
    show lookupKey (spreadFields (spreadFields defF curF) (mergeEntries curF defF)) k
      = some v
    have h1 := lookupKey_mergeEntries_atomic curF defF k v hnd h ha
    have hnd2 : ((mergeEntries curF defF).map Prod.fst).Nodup :=
      hnd.sublist (mergeEntries_keys_sublist curF defF)
    exact lookupKey_spreadFields_mem _ _ _ _ hnd2 h1
  · intro curF defF k v hcur hdef
    show lookupKey (spreadFields (spreadFields defF curF) (mergeEntries curF defF)) k
      = some v
    have h1 : k ∉ (mergeEntries curF defF).map Prod.fst := by
      rw [← lookupKey_eq_none_iff]
      exact lookupKey_mergeEntries_none curF defF k hcur
    have h2 : k ∉ curF.map Prod.fst := (lookupKey_eq_none_iff curF k).mp hcur
    rw [lookupKey_spreadFields_not_mem _ _ _ h1,
        lookupKey_spreadFields_not_mem _ _ _ h2]
    exact hdef
  · simp [mergeDefaults, mergeEntries, spreadFields, setField, fieldsOf, lookupKey,
      List.foldl_cons, List.foldl_nil]

/-- Witness for C8 at concrete inputs: the atomic-preservation clause at
`current = {tasks: [], activeTaskId: null}`, `defaults = {tasks: [x], n: 1}`
for both an array and a `null` value, and the backfill clause for the key
`n` present only in the defaults. -/
theorem C8_mergeDefaults_atomic_and_backfill_witness :
    lookupKey (fieldsOf (mergeDefaults
        (.obj [("tasks", .arr []), ("activeTaskId", .null)])
        (.obj [("tasks", .arr [.str "x"]), ("n", .num 1)]))) "tasks"
      = some (.arr []) ∧
    lookupKey (fieldsOf (mergeDefaults
        (.obj [("tasks", .arr []), ("activeTaskId", .null)])
        (.obj [("tasks", .arr [.str "x"]), ("n", .num 1)]))) "activeTaskId"
      = some .null ∧
    lookupKey (fieldsOf (mergeDefaults
        (.obj [("tasks", .arr []), ("activeTaskId", .null)])
        (.obj [("tasks", .arr [.str "x"]), ("n", .num 1)]))) "n"
      = some (.num 1) := by
  refine ⟨?_, ?_, ?_⟩
  · exact C8_mergeDefaults_atomic_and_backfill.1
      [("tasks", .arr []), ("activeTaskId", .null)]
      [("tasks", .arr [.str "x"]), ("n", .num 1)] "tasks" (.arr [])
      (by simp) (by simp [lookupKey]) rfl
  · exact C8_mergeDefaults_atomic_and_backfill.1
      [("tasks", .arr []), ("activeTaskId", .null)]
      [("tasks", .arr [.str "x"]), ("n", .num 1)] "activeTaskId" .null
      (by simp) (by simp [lookupKey]) rfl
  · exact C8_mergeDefaults_atomic_and_backfill.2.1
      [("tasks", .arr []), ("activeTaskId", .null)]
      [("tasks", .arr [.str "x"]), ("n", .num 1)] "n" (.num 1)
      (by simp [lookupKey]) (by simp [lookupKey])

/-! ## Lifecycle lemmas -/

theorem startTimer_cycleCount (mk : Option String) (po : Option Phase)
    (now : Int) (store : Store) :
    (startTimer mk po now store).state.timer.cycleCount
      = store.state.timer.cycleCount := by
  unfold startTimer
  dsimp only
  split <;> rfl

theorem startTimer_tasks (mk : Option String) (po : Option Phase)
    (now : Int) (store : Store) :
    (startTimer mk po now store).state.tasks = store.state.tasks := by
  unfold startTimer
  dsimp only
  split <;> rfl

/-- The `cycleCount` written by `handleAlarm` always equals the old one:
the increment is guarded by `next.phase === 'work'`, and `nextPhase` maps a
completing `work` phase into the break family and a completing break phase
(where `incrementedCycle` is just the old count) back to `work`. -/
theorem cycleCount_update_id (timer : Timer) (method : Method) :
    (if (nextPhase timer method).phase = .work
     then (if timer.phase = .work then timer.cycleCount + 1 else timer.cycleCount)
     else timer.cycleCount) = timer.cycleCount := by
  by_cases hf : method.flexible
  · simp [nextPhase, hf]
  · by_cases hw : timer.phase = .work
    · have hne : (nextPhase timer method).phase ≠ .work := by
        unfold nextPhase
        rw [if_neg (by simp [hf]), if_pos hw]
        dsimp only
        split <;> split <;> simp
      simp [hne]
    · simp [nextPhase, hf, hw]

theorem pauseTimer_fixed_ok (now : Int) (s : Store)
    (hrun : s.state.timer.isRunning = true)
    (hlock : s.settings.lockIn = false)
    (hflex : (getMethodConfig s.state.timer.methodKey s.settings).flexible = false) :
    pauseTimer now s = .ok { s with state := { s.state with timer :=
      { s.state.timer with
        isRunning := false,
        remainingMs := max 0 (s.state.timer.endTime - now),
        startTime := 0, endTime := 0 } } } := by
  unfold pauseTimer
  simp [hrun, hlock, hflex]

theorem resumeTimer_fixed (now : Int) (s : Store)
    (hflex : (getMethodConfig s.state.timer.methodKey s.settings).flexible = false)
    (hrm : s.state.timer.remainingMs ≠ 0) :
    resumeTimer now s = { s with state := { s.state with timer :=
      { s.state.timer with
        isRunning := true,
        startTime := now,
        endTime := now + s.state.timer.remainingMs,
        remainingMs := 0 } } } := by
  unfold resumeTimer
  simp [hflex, hrm]

/-- Unfolding `appendHistory`: taking 200 of a cons keeps the head and 199
of the tail. -/
theorem appendHistory_eq (entry : HistoryEntry) (history : List HistoryEntry) :
    appendHistory entry history = entry :: history.take 199 := by
  unfold appendHistory
  rw [show (200 : Nat) = 199 + 1 from rfl, List.take_succ_cons]

/-- C1 (code bug): the claim says completing a work phase increments
`cycleCount` and that four completed Pomodoro work phases route the breaks
`break, break, break, longBreak`.  In the code the `cycleCount` update is
guarded by `next.phase === 'work'`, which never holds when the completing
phase was `work`, so `handleAlarm` leaves `cycleCount` unchanged on every
store, and the four completed Pomodoro work phases (restarted manually
after each) all route to the short `break`, with `cycleCount` still 0
(while `completedSessions` does reach 4). -/
theorem C1_cycleCount_never_incremented :
    (∀ (freshId : String) (now : Int) (store : Store),
        (handleAlarm freshId now store).state.timer.cycleCount
          = store.state.timer.cycleCount) ∧
    (c1AfterFirst.state.timer.phase = .brk ∧
     c1AfterSecond.state.timer.phase = .brk ∧
     c1AfterThird.state.timer.phase = .brk ∧
     c1AfterFourth.state.timer.phase = .brk ∧
     c1AfterFourth.state.timer.cycleCount = 0 ∧
     c1AfterFourth.state.timer.completedSessions = 4) := by
  constructor
  · intro freshId now store
    unfold handleAlarm
    dsimp only
    split
    · rfl
    · split
      · rw [startTimer_cycleCount]
        exact cycleCount_update_id store.state.timer
          (getMethodConfig store.state.timer.methodKey store.settings)
      · exact cycleCount_update_id store.state.timer
          (getMethodConfig store.state.timer.methodKey store.settings)
  · exact ⟨by decide, by decide, by decide, by decide, by decide, by decide⟩

/-- C3 (code bug): the claim says that after the phase-completion handler
fully finishes, the active task's `completedSessions` is incremented in
storage.  `updateTaskProgress` does persist the increment (second
conjunct), but `handleAlarm` then persists `newState`, whose `tasks` field
was captured from the state loaded before the increment — so the tasks in
storage after the handler are always exactly the tasks it started with
(first conjunct), and in the concrete scenario the stored task still has
`completedSessions = 0` (third conjunct). -/
theorem C3_task_progress_clobbered :
    (∀ (freshId : String) (now : Int) (store : Store),
        (handleAlarm freshId now store).state.tasks = store.state.tasks) ∧
    (updateTaskProgress c3Store.state c3Store).state.tasks
      = [{ id := "t1", title := "Write report", estimate := 2,
           completedSessions := 1, done := false }] ∧
    (handleAlarm "h1" 1500000 c3Store).state.tasks = [c3Task] := by
  refine ⟨?_, by decide, by decide⟩
  intro freshId now store
  unfold handleAlarm
  dsimp only
  split
  · rfl
  · split
    · rw [startTimer_tasks]
    · rfl

/-- C2 counterexample: the claim's final clause says the lock-in rejection
applies only on non-flexible methods, but `resetTimer`'s guard never
consults the method: on a running work-phase snapshot whose method is the
flexible `flowtime`, reset is still rejected (and storage left unchanged). -/
theorem C2_reset_rejects_flexible_counterexample :
    (getMethodConfig lockedFlexWorkStore.state.timer.methodKey
        lockedFlexWorkStore.settings).flexible = true ∧
    runResetTimer lockedFlexWorkStore =
      (lockedFlexWorkStore,
       some "Lock-In Mode is enabled; reset is blocked during focus.") := by
  decide

/-- C2 amended: when lock-in is enabled and the timer is running in the
`work` phase, `pauseTimer` and `resetTimer` both fail with an explanatory
error and leave the stored aggregate exactly unchanged on every
non-flexible method; the pause rejection applies only on non-flexible
methods (on a flexible method pause succeeds), while the reset rejection
does not consult the method and fires regardless of flexibility. -/
theorem C2_lockin_rejection_amended (store : Store) (now : Int)
    (hlock : store.settings.lockIn = true)
    (hphase : store.state.timer.phase = .work)
    (hrun : store.state.timer.isRunning = true) :
    ((getMethodConfig store.state.timer.methodKey store.settings).flexible = false →
      runPauseTimer now store =
        (store, some "Lock-In Mode is enabled; pause is blocked during focus.")) ∧
    ((getMethodConfig store.state.timer.methodKey store.settings).flexible = true →
      (runPauseTimer now store).2 = none) ∧
    runResetTimer store =
      (store, some "Lock-In Mode is enabled; reset is blocked during focus.") := by
  refine ⟨?_, ?_, ?_⟩
  · intro hflex
    unfold runPauseTimer pauseTimer
    simp [hrun, hlock, hphase, hflex]
  · intro hflex
    unfold runPauseTimer pauseTimer
    simp [hrun, hlock, hphase, hflex]
  · unfold runResetTimer resetTimer
    simp [hrun, hlock, hphase]

/-- Witness for C2 at concrete inputs: a locked running Pomodoro work phase
(non-flexible: both operations rejected, storage unchanged) and a locked
running work phase under `flowtime` (flexible: pause succeeds). -/
theorem C2_lockin_rejection_amended_witness :
    (runPauseTimer 100 lockedFixedWorkStore =
      (lockedFixedWorkStore,
       some "Lock-In Mode is enabled; pause is blocked during focus.")) ∧
    (runResetTimer lockedFixedWorkStore =
      (lockedFixedWorkStore,
       some "Lock-In Mode is enabled; reset is blocked during focus.")) ∧
    (runPauseTimer 100 lockedFlexWorkStore).2 = none := by
  refine ⟨?_, ?_, ?_⟩
  · exact (C2_lockin_rejection_amended lockedFixedWorkStore 100
      (by decide) (by decide) (by decide)).1 (by decide)
  · exact (C2_lockin_rejection_amended lockedFixedWorkStore 100
      (by decide) (by decide) (by decide)).2.2
  · exact (C2_lockin_rejection_amended lockedFlexWorkStore 100
      (by decide) (by decide) (by decide)).2.1 (by decide)

/-- C4 counterexample: the claim quantifies over every snapshot including
negative `remainingMs`, but `computeRemaining` returns a paused snapshot's
`remainingMs` without clamping, so a flowtime snapshot paused with
`remainingMs = -1` yields `-1 < 0`. -/
theorem C4_computeRemaining_negative_counterexample :
    computeRemaining negativePausedFlowTimer flowtimeMethod 0 = -1 ∧
    ((-1 : Int) < 0) := by
  decide

/-- C4 amended: for every timer snapshot whose `remainingMs` is
non-negative (which holds for every snapshot the lifecycle itself writes,
since `pauseTimer` clamps with `Math.max(0, ·)`), and every method and
clock value, `computeRemaining` returns a value ≥ 0. -/
theorem C4_computeRemaining_nonneg_amended (timer : Timer) (method : Method)
    (now : Int) (h : 0 ≤ timer.remainingMs) :
    0 ≤ computeRemaining timer method now := by
  unfold computeRemaining
  split
  · split
    · exact h
    · exact le_max_left 0 _
  · split
    · exact le_max_left 0 _
    · split
      · exact h
      · exact le_max_left 0 _

/-- Witness for C4 at a concrete input: the fallback case of an idle
Pomodoro snapshot. -/
theorem C4_computeRemaining_nonneg_amended_witness :
    (0 : Int) ≤ idleZeroTimer.remainingMs ∧
    0 ≤ computeRemaining idleZeroTimer pomodoroMethod 1000 :=
  ⟨by decide, C4_computeRemaining_nonneg_amended idleZeroTimer pomodoroMethod 1000 (by decide)⟩

/-- C5 (code bug): for an idle fixed-method snapshot with zero
`remainingMs` and zero `endTime` the claim (and the spec's rule 6) expects
the full phase duration, `computePhaseDuration(method, phase)` = 1 500 000
ms for a Pomodoro work phase — but `computeRemaining` reaches its fallback
with the arguments swapped (`computePhaseDuration(timer, method)`), which
evaluates to 0, and the service worker's `remainingMs` (the `getState`
computation) has no phase-duration fallback at all and also returns 0. -/
theorem C5_fallback_returns_zero :
    computeRemaining idleZeroTimer pomodoroMethod 1000 = 0 ∧
    computePhaseDuration pomodoroMethod .work = 1500000 ∧
    swRemainingMs idleZeroTimer 1000 = 0 := by
  decide

/-- C6 counterexample: pausing a running Pomodoro work phase exactly at its
end time captures a remaining time of `endTime - t1 = 0`, and resuming then
falls back to the full phase duration (`remainingMs || duration` sends the
integer 0 to the fallback): the remaining time evaluated at the resume
instant is 1 500 000 ms, not the captured 0 — so the round trip does not
preserve the remaining time for every running timer and every `t1`. -/
theorem C6_roundtrip_zero_remaining_counterexample :
    runningWorkStore.state.timer.endTime - 1500000 = 0 ∧
    computeRemaining
      (resumeTimer 2000000 (runPauseTimer 1500000 runningWorkStore).1).state.timer
      (getMethodConfig runningWorkStore.state.timer.methodKey
        runningWorkStore.settings) 2000000 = 1500000 := by
  decide

/-- C6 amended: for every running timer under a fixed-duration method (with
lock-in off so that pause is not rejected), pausing at `t1` while the
captured remaining time `endTime - t1` is positive and resuming at any
`t2 ≥ 0` yields a running timer whose remaining time evaluated at `t2`
(by `computeRemaining` and by the worker's `remainingMs`) equals exactly
`endTime - t1`. -/
theorem C6_pause_resume_roundtrip_amended (store : Store) (t1 t2 : Int)
    (hrun : store.state.timer.isRunning = true)
    (hflex : (getMethodConfig store.state.timer.methodKey store.settings).flexible
      = false)
    (hlock : store.settings.lockIn = false)
    (hr : 0 < store.state.timer.endTime - t1)
    (ht2 : 0 ≤ t2) :
    (runPauseTimer t1 store).2 = none ∧
    (resumeTimer t2 (runPauseTimer t1 store).1).state.timer.isRunning = true ∧
    computeRemaining (resumeTimer t2 (runPauseTimer t1 store).1).state.timer
        (getMethodConfig store.state.timer.methodKey store.settings) t2
      = store.state.timer.endTime - t1 ∧
    swRemainingMs (resumeTimer t2 (runPauseTimer t1 store).1).state.timer t2
      = store.state.timer.endTime - t1 := by
  have hmax : max 0 (store.state.timer.endTime - t1) = store.state.timer.endTime - t1 :=
    max_eq_right hr.le
  have hp := pauseTimer_fixed_ok t1 store hrun hlock hflex
  rw [hmax] at hp
  have hrp : runPauseTimer t1 store =
      ({ store with state := { store.state with timer :=
        { store.state.timer with
          isRunning := false,
          remainingMs := store.state.timer.endTime - t1,
          startTime := 0, endTime := 0 } } }, none) := by
    unfold runPauseTimer
    rw [hp]
  rw [hrp]
  dsimp only
  rw [resumeTimer_fixed t2
    { store with state := { store.state with timer :=
      { store.state.timer with
        isRunning := false,
        remainingMs := store.state.timer.endTime - t1,
        startTime := 0, endTime := 0 } } } hflex hr.ne']
  dsimp only
  have hend : t2 + (store.state.timer.endTime - t1) ≠ 0 := by omega
  have hsub : t2 + (store.state.timer.endTime - t1) - t2
      = store.state.timer.endTime - t1 := by ring
  refine ⟨rfl, rfl, ?_, ?_⟩
  · unfold computeRemaining
    simp only [hflex, Bool.false_eq_true, if_false, if_neg]
    rw [if_pos ⟨trivial, hend⟩, hsub]
    exact hmax
  · unfold swRemainingMs
    rw [if_pos ⟨rfl, hend⟩, hsub]
    exact hmax

/-- Witness for C6 at concrete inputs: the running Pomodoro work phase
paused at 100 000 ms (captured remaining 1 400 000 ms) and resumed at
2 000 000 ms. -/
theorem C6_pause_resume_roundtrip_amended_witness :
    (runPauseTimer 100000 runningWorkStore).2 = none ∧
    computeRemaining
      (resumeTimer 2000000 (runPauseTimer 100000 runningWorkStore).1).state.timer
      (getMethodConfig runningWorkStore.state.timer.methodKey
        runningWorkStore.settings) 2000000 = 1400000 := by
  have h := C6_pause_resume_roundtrip_amended runningWorkStore 100000 2000000
    (by decide) (by decide) (by decide) (by decide) (by decide)
  exact ⟨h.1, h.2.2.1⟩

/-- C7: appending a history entry prepends it (newest first) and trims to
at most 200 entries by dropping from the tail: the result starts with the
new entry, has length `min (n+1) 200`, is a prefix of the untrimmed list
(all kept entries unchanged and in order), and on a 200-entry history
exactly the last entry is evicted. -/
theorem C7_history_append_cap (entry : HistoryEntry) (history : List HistoryEntry) :
    (appendHistory entry history).head? = some entry ∧
    (appendHistory entry history).length = min (history.length + 1) 200 ∧
    appendHistory entry history <+: entry :: history ∧
    (history.length = 200 →
      appendHistory entry history = entry :: history.dropLast) := by
  refine ⟨?_, ?_, ?_, ?_⟩
  · rw [appendHistory_eq]
    rfl
  · unfold appendHistory
    rw [List.length_take, List.length_cons, Nat.min_comm]
  · unfold appendHistory
    exact List.take_prefix _ _
  · intro hlen
    rw [appendHistory_eq, List.dropLast_eq_take, hlen]

/-- Witness for C7 at a concrete input: appending to a history of exactly
200 entries evicts precisely the last one. -/
theorem C7_history_append_cap_witness :
    (List.replicate 200 (sampleEntry 0)).length = 200 ∧
    appendHistory (sampleEntry 1) (List.replicate 200 (sampleEntry 0))
      = sampleEntry 1 :: (List.replicate 200 (sampleEntry 0)).dropLast := by
  refine ⟨by rw [List.length_replicate], ?_⟩
  exact (C7_history_append_cap (sampleEntry 1) (List.replicate 200 (sampleEntry 0))).2.2.2
    (by rw [List.length_replicate])

/-- C9 counterexample: the service worker's `addTask` handler stores
`message.estimate ?? 1` without clamping, so the estimate 0 is stored as 0,
violating the claimed `estimate ≥ 1` for every numeric estimate input. -/
theorem C9_addTask_estimate_zero_counterexample :
    (swAddTask "t9" "Read" (some 0) initialStore).2.estimate = 0 ∧
    (swAddTask "t9" "Read" (some 0) initialStore).1.state.tasks.head? =
      some { id := "t9", title := "Read", estimate := 0,
             completedSessions := 0, done := false } ∧
    ¬ (1 ≤ (swAddTask "t9" "Read" (some 0) initialStore).2.estimate) := by
  decide

/-- C9 amended: the task stored by the service worker's `addTask` handler
is prepended to the front of the task list with `completedSessions = 0`,
`done = false`, and `estimate` taken verbatim from the request (1 when
absent); `estimate ≥ 1` is guaranteed whenever the supplied estimate is
≥ 1 or absent, and the `state.js` helper `createTask` does clamp the
estimate to ≥ 1 for every input. -/
theorem C9_addTask_amended (freshId title : String) (estimate : Option Int)
    (store : Store) :
    (swAddTask freshId title estimate store).1.state.tasks
      = (swAddTask freshId title estimate store).2 :: store.state.tasks ∧
    (swAddTask freshId title estimate store).2.completedSessions = 0 ∧
    (swAddTask freshId title estimate store).2.done = false ∧
    (swAddTask freshId title estimate store).2.estimate = estimate.getD 1 ∧
    ((∀ n, estimate = some n → 1 ≤ n) →
      1 ≤ (swAddTask freshId title estimate store).2.estimate) ∧
    (∀ est : Option Int, 1 ≤ (createTask freshId title est).estimate) := by
  refine ⟨rfl, rfl, rfl, rfl, ?_, ?_⟩
  · intro hn
    cases estimate with
    | none => exact le_refl 1
    | some n => exact hn n rfl
  · intro est
    unfold createTask
    exact le_max_left 1 _

/-- Witness for C9 at concrete inputs: an estimate of 3 is stored ≥ 1 and
the task is prepended. -/
theorem C9_addTask_amended_witness :
    (swAddTask "t9w" "Plan" (some 3) initialStore).1.state.tasks
      = (swAddTask "t9w" "Plan" (some 3) initialStore).2
          :: initialStore.state.tasks ∧
    1 ≤ (swAddTask "t9w" "Plan" (some 3) initialStore).2.estimate := by
  refine ⟨(C9_addTask_amended "t9w" "Plan" (some 3) initialStore).1, ?_⟩
  exact (C9_addTask_amended "t9w" "Plan" (some 3) initialStore).2.2.2.2.1
    (by intro n hn; injection hn with h; omega)

/-- C10: when the reset operation is not rejected by lock-in, it replaces
only the timer snapshot — reinitialized to `DEFAULT_STATE.timer` with
`methodKey` set to the settings' selected method — and the tasks, history,
statistics and settings in storage are exactly unchanged. -/
theorem C10_reset_frame (store : Store)
    (h : ¬ (store.settings.lockIn = true ∧ store.state.timer.phase = .work ∧
            store.state.timer.isRunning = true)) :
    runResetTimer store =
      ({ store with state := { store.state with
          timer := { defaultTimer with
                     methodKey := store.settings.selectedMethod } } }, none) ∧
    (runResetTimer store).1.state.tasks = store.state.tasks ∧
    (runResetTimer store).1.state.history = store.state.history ∧
    (runResetTimer store).1.state.statistics = store.state.statistics ∧
    (runResetTimer store).1.settings = store.settings := by
  have heq : resetTimer store = .ok { store with state := { store.state with
      timer := { defaultTimer with
                 methodKey := store.settings.selectedMethod } } } := by
    unfold resetTimer
    dsimp only
    rw [if_neg h]
  have hrr : runResetTimer store =
      ({ store with state := { store.state with
          timer := { defaultTimer with
                     methodKey := store.settings.selectedMethod } } }, none) := by
    unfold runResetTimer
    rw [heq]
  rw [hrr]
  exact ⟨rfl, rfl, rfl, rfl, rfl⟩

/-- Witness for C10 at a concrete input: resetting the install-time store
(lock-in off). -/
theorem C10_reset_frame_witness :
    runResetTimer initialStore =
      ({ initialStore with state := { initialStore.state with
          timer := { defaultTimer with
                     methodKey := initialStore.settings.selectedMethod } } },
       none) :=
  (C10_reset_frame initialStore (by decide)).1

end FlexiFocus
